import Mathlib

/-!
Fit-Simulator: verification of the job submission / signed-delivery flow

Shallow embedding of the TypeScript sources of the Fit-Simulator repository:

* `src/lib/gemini/performance.ts` — retry/timeout policy (`PerformanceMonitor`);
* `src/lib/supabase.ts` (upload-validation section) — `validateFile`,
  `validateCategoryConstraints`, `validateUpload`;
* `src/app/api/fit/simulate/route.ts` — job submission controller;
* `src/app/api/fit/share/route.ts` — share-link endpoint;
* the view-job `GET` route and the preview-bytes `POST` route;
* `src/app/api/fit/download/[job_id]/route.ts` — download endpoint.

Modelling conventions:

* JavaScript strings are Lean `String`s; `String.prototype.startsWith` is
  modelled as a character-level prefix test (`jsStartsWith`);
* the wall clock is modelled per request by two values: `startTime`
  (the `Date.now()` taken on entry) and `now` (the value returned by every
  later `Date.now()` call of the same request — the clock is held fixed
  within a request, which is sufficient for the properties proved here);
* fallible awaited collaborators (auth, DB lookups, storage, the Gemini
  backend) are injected as fields of a `Deps` structure; `Option`/`Except`
  model their error channel;
* side effects (backend calls, storage writes, DB inserts) are returned
  alongside the HTTP response as explicit effect lists;
* in the retry policy, durations are rationals (JS numbers with fractional
  jitter) and the thrown aggregate `Error` is modelled by the structure
  `AggregateErr` carrying the three values that its message interpolates.
-/

namespace FitSim

/-- JS `String.prototype.startsWith` on code units: `pre` is a prefix of `s`,
computed character by character. -/
def startsWithChars : List Char → List Char → Bool
  | [], _ => true
  | _ :: _, [] => false
  | a :: as, b :: bs => a == b && startsWithChars as bs

/-- `s.startsWith(pre)` in JS. -/
def jsStartsWith (s pre : String) : Bool :=
  startsWithChars pre.data s.data

/-- JS `String.prototype.split` with a one-character separator, on code
units. -/
def splitOnChar (sep : Char) : List Char → List (List Char)
  | [] => [[]]
  | c :: cs =>
    let rest := splitOnChar sep cs
    if c == sep then
      [] :: rest
    else
      match rest with
      | [] => [[c]]
      | r :: rs => (c :: r) :: rs

/-- `authHeader.split(' ')[1]` in JS (the `undefined` of a too-short split is
collapsed to the empty string, which no token resolver accepts). -/
def tokenOf (h : String) : String :=
  String.mk ((splitOnChar ' ' h.data).getD 1 [])

/-- JS falsiness of a nullable string: `null`/`undefined` and `""` are falsy. -/
def jsFalsy : Option String → Bool
  | none => true
  | some s => s == ""

/-- JS template interpolation of a possibly-`undefined` string. -/
def optStr : Option String → String
  | none => "undefined"
  | some s => s

theorem startsWithChars_iff (p l : List Char) : startsWithChars p l = true ↔ p <+: l := by
  induction p generalizing l with
  | nil => simp [startsWithChars]
  | cons a as ih =>
    cases l with
    | nil => simp [startsWithChars]
    | cons b bs =>
      simp only [startsWithChars, Bool.and_eq_true, beq_iff_eq, ih,
        List.cons_prefix_cons]

theorem jsStartsWith_iff (s pre : String) :
    jsStartsWith s pre = true ↔ pre.data <+: s.data := by
  simp [jsStartsWith, startsWithChars_iff]

/-! ## `src/lib/gemini/performance.ts` -/

/-- `PerformanceConfig`. Times are in milliseconds, as rationals (JS numbers). -/
structure PerformanceConfig where
  maxDurationMs : ℚ
  retryAttempts : Nat
  retryDelayMs : ℚ
  timeoutMs : ℚ
deriving DecidableEq

/-- `DEFAULT_PERFORMANCE_CONFIG`. -/
def DEFAULT_PERFORMANCE_CONFIG : PerformanceConfig :=
  { maxDurationMs := 60000
    retryAttempts := 2
    retryDelayMs := 2000
    timeoutMs := 30000 }

/-- `getElapsedMs()`: `Date.now() - this.startTime`. -/
def getElapsedMs (startTime now : ℚ) : ℚ := now - startTime

/-- `isWithinLimits()`: `getElapsedMs() < maxDurationMs`. -/
def isWithinLimits (cfg : PerformanceConfig) (startTime now : ℚ) : Bool :=
  getElapsedMs startTime now < cfg.maxDurationMs

/-- `shouldRetry(attempt)`: false once `attempt >= retryAttempts`, otherwise
true iff the projected time of the next attempt (`elapsed + retryDelayMs`)
stays strictly under `maxDurationMs`. -/
def shouldRetry (cfg : PerformanceConfig) (startTime now : ℚ) (attempt : Nat) : Bool :=
  if cfg.retryAttempts ≤ attempt then
    false
  else
    getElapsedMs startTime now + cfg.retryDelayMs < cfg.maxDurationMs

/-- `getRetryDelay(attempt)`: exponential backoff `retryDelayMs * 2^(attempt-1)`
plus up to 10% jitter (`rand ∈ [0,1)` models `Math.random()`), capped at 5000. -/
def getRetryDelay (cfg : PerformanceConfig) (rand : ℚ) (attempt : Nat) : ℚ :=
  let baseDelay := cfg.retryDelayMs * 2 ^ (attempt - 1)
  let jitter := rand * (1 / 10) * baseDelay
  min (baseDelay + jitter) 5000

/-- One invocation of the wrapped operation: `settleMs` is the time until the
underlying promise settles, `result` what it settles to. -/
structure AttemptBehavior (α : Type) where
  settleMs : ℚ
  result : Except String α

/-- `createTimeoutPromise`: a `Promise.race` of the operation against a
`timeoutMs` timer.  Returns the time the race takes and its outcome. -/
def attemptOutcome (cfg : PerformanceConfig) (b : AttemptBehavior α) :
    ℚ × Except String α :=
  if b.settleMs < cfg.timeoutMs then
    (b.settleMs, b.result)
  else
    (cfg.timeoutMs,
     .error ("Operation timed out after " ++ toString cfg.timeoutMs ++ "ms"))

/-- The aggregate `Error` thrown when all retries failed.  Its JS message is
`Operation failed after <attempts> attempts. Last error: <lastError>. Total
time: <totalTimeMs>ms`; the structure carries those three interpolated values. -/
structure AggregateErr where
  attempts : Nat
  lastError : Option String
  totalTimeMs : ℚ
deriving DecidableEq

/-- Rendering of the aggregate error message, exactly as interpolated in the
source. -/
def AggregateErr.message (e : AggregateErr) : String :=
  "Operation failed after " ++ toString e.attempts ++ " attempts. " ++
    "Last error: " ++ optStr e.lastError ++ ". " ++
    "Total time: " ++ toString e.totalTimeMs ++ "ms"

/-- Outcome of `executeWithRetry`: the settled value or the aggregate error,
the number of times the wrapped operation was invoked, and the clock value on
exit. -/
structure RetryResult (α : Type) where
  result : Except AggregateErr α
  calls : Nat
  endTime : ℚ

/-- Body of the `for (let attempt = 1; attempt <= retryAttempts; attempt++)`
loop of `executeWithRetry`, with `remaining = retryAttempts - attempt + 1`
iterations left.  On each iteration: a budget check (its `throw` is caught by
the same `catch` as an operation failure), the raced operation, and on failure
the `shouldRetry` break or the backoff sleep. -/
def executeWithRetryAux (cfg : PerformanceConfig) (ops : Nat → AttemptBehavior α)
    (rand : Nat → ℚ) (startTime : ℚ) :
    Nat → Nat → ℚ → Option String → Nat → RetryResult α
  | _, 0, now, lastError, calls =>
    ⟨.error ⟨cfg.retryAttempts, lastError, getElapsedMs startTime now⟩, calls, now⟩
  | attempt, remaining + 1, now, _, calls =>
    if isWithinLimits cfg startTime now then
      let (dt, res) := attemptOutcome cfg (ops attempt)
      match res with
      | .ok v => ⟨.ok v, calls + 1, now + dt⟩
      | .error msg =>
        if shouldRetry cfg startTime (now + dt) attempt then
          executeWithRetryAux cfg ops rand startTime (attempt + 1) remaining
            (now + dt + getRetryDelay cfg (rand attempt) attempt) (some msg) (calls + 1)
        else
          ⟨.error ⟨cfg.retryAttempts, some msg, getElapsedMs startTime (now + dt)⟩,
           calls + 1, now + dt⟩
    else
      let msg := "Operation exceeded maximum duration of " ++
        toString cfg.maxDurationMs ++ "ms"
      if shouldRetry cfg startTime now attempt then
        executeWithRetryAux cfg ops rand startTime (attempt + 1) remaining
          (now + getRetryDelay cfg (rand attempt) attempt) (some msg) calls
      else
        ⟨.error ⟨cfg.retryAttempts, some msg, getElapsedMs startTime now⟩, calls, now⟩

/-- `executeWithRetry(operation)`: the monitor was started at `startTime`;
`ops n` is the behavior of the `n`-th invocation of the wrapped operation,
`rand n` the `Math.random()` draw used for the `n`-th backoff. -/
def executeWithRetry (cfg : PerformanceConfig) (ops : Nat → AttemptBehavior α)
    (rand : Nat → ℚ) (startTime : ℚ) : RetryResult α :=
  executeWithRetryAux cfg ops rand startTime 1 cfg.retryAttempts startTime none 0

/-! ## `src/lib/supabase.ts` — upload pre-validation -/

/-- Upload categories (`UploadCategory`). -/
inductive UploadCategory where
  | person
  | item
deriving DecidableEq

/-- The fields of a JS `File` that validation reads. -/
structure JsFile where
  type : String
  size : Nat
deriving DecidableEq

/-- `FileUploadMetadata` (the fields validation reads). -/
structure FileUploadMetadata where
  id : String
  file : JsFile
  category : UploadCategory
  size : Nat
deriving DecidableEq

/-- `ValidationError`. -/
structure ValidationError where
  field : String
  message : String
  code : String
deriving DecidableEq

structure CategoryBounds where
  min : Nat
  max : Nat
deriving DecidableEq

/-- `UPLOAD_CONSTRAINTS`. -/
structure UploadConstraint where
  person : CategoryBounds
  items : CategoryBounds
  noDuplicates : Bool
deriving DecidableEq

def UPLOAD_CONSTRAINTS : UploadConstraint :=
  { person := { min := 1, max := 1 }
    items := { min := 0, max := 3 }
    noDuplicates := true }

/-- `FILE_CONSTRAINTS`. -/
structure FileConstraintsT where
  maxSize : Nat
  hardMaxSize : Nat
  allowedTypes : List String
deriving DecidableEq

def FILE_CONSTRAINTS : FileConstraintsT :=
  { maxSize := 5 * 1024 * 1024
    hardMaxSize := 8 * 1024 * 1024
    allowedTypes := ["image/jpeg", "image/jpg", "image/png"] }

/-- `validateFile(file)`: type allow-list and hard size ceiling. -/
def validateFile (file : JsFile) : List ValidationError :=
  (if ¬ FILE_CONSTRAINTS.allowedTypes.contains file.type then
    [{ field := "file"
       message := "지원하지 않는 파일 형식입니다. JPG, PNG 파일만 업로드 가능합니다."
       code := "INVALID_FILE_TYPE" }]
  else []) ++
  (if file.size > FILE_CONSTRAINTS.hardMaxSize then
    [{ field := "file"
       message := "파일 크기가 너무 큽니다. 8MB 이하의 파일만 업로드 가능합니다."
       code := "FILE_SIZE_EXCEEDED" }]
  else [])

/-- `validateCategoryConstraints(files)`: person min/max and item max counts. -/
def validateCategoryConstraints (files : List FileUploadMetadata) :
    List ValidationError :=
  let personCount := (files.filter fun f => f.category == UploadCategory.person).length
  let itemCount := (files.filter fun f => f.category == UploadCategory.item).length
  (if personCount < UPLOAD_CONSTRAINTS.person.min then
    [{ field := "person"
       message := "최소 " ++ toString UPLOAD_CONSTRAINTS.person.min ++
         "개의 인물 사진이 필요합니다."
       code := "CATEGORY_LIMIT_EXCEEDED" }]
  else []) ++
  (if personCount > UPLOAD_CONSTRAINTS.person.max then
    [{ field := "person"
       message := "인물 사진은 최대 " ++ toString UPLOAD_CONSTRAINTS.person.max ++
         "개까지만 업로드 가능합니다."
       code := "CATEGORY_LIMIT_EXCEEDED" }]
  else []) ++
  (if itemCount > UPLOAD_CONSTRAINTS.items.max then
    [{ field := "items"
       message := "아이템 사진은 최대 " ++ toString UPLOAD_CONSTRAINTS.items.max ++
         "개까지만 업로드 가능합니다."
       code := "CATEGORY_LIMIT_EXCEEDED" }]
  else [])

/-- `UploadValidationResult`. -/
structure UploadValidationResult where
  isValid : Bool
  errors : List ValidationError
deriving DecidableEq

/-- `validateUpload(files)`: per-file errors in order, then category errors;
valid iff the collected error list is empty. -/
def validateUpload (files : List FileUploadMetadata) : UploadValidationResult :=
  let errors :=
    (files.flatMap fun f => validateFile f.file) ++ validateCategoryConstraints files
  { isValid := errors.length == 0, errors := errors }

/-! ## Data model shared by the API routes -/

/-- The authenticated user as resolved from a bearer token. -/
structure User where
  id : String
deriving DecidableEq

/-- A row of the `fit.jobs` table (the columns the routes read and write). -/
structure Job where
  id : String
  user_id : String
  app_id : String
  person_path : String
  item_paths : List String
  pose_id : Option String
  preview_path : Option String
  duration_ms : Nat
  status : String
  created_at : Nat
deriving DecidableEq

/-- A row of the `fit.sim_metrics` table as inserted by
`recordSimulationMetrics`. -/
structure MetricRow where
  job_id : Option String
  user_id : String
  duration_ms : Nat
  status : String
  details : String
  created_at : Nat
deriving DecidableEq

/-- The JSON (or raw-bytes) HTTP response of a route: the status code and
every field any of the five routes ever sets, absent fields being `none`. -/
structure Response where
  status : Nat
  success : Option Bool := none
  error : Option String := none
  details : Option String := none
  previewUrl : Option String := none
  jobId : Option String := none
  duration_ms : Option Nat := none
  signedUrl : Option String := none
  expiresAt : Option Int := none
  job : Option Job := none
  bytes : Option (List Nat) := none
deriving DecidableEq

/-- `createSignedUrl` success payload. -/
structure SignedUrlData where
  signedUrl : String
deriving DecidableEq

/-- Signed-URL expiry in seconds: `Math.max(60, Math.floor(days * 86400))`. -/
def expiresInSec (days : ℚ) : Int :=
  max 60 ⌊days * 86400⌋

/-! ## `src/app/api/fit/simulate/route.ts` -/

/-- `geminiClient.generateImage` result shape. -/
structure GeminiResult where
  success : Bool
  error : Option String
  imageBuffer : Option (List Nat)
deriving DecidableEq

/-- Request body of the simulate route (`itemPaths` defaults to `[]`). -/
structure SimBody where
  personPath : String
  itemPaths : List String
deriving DecidableEq

/-- Injected collaborators of the simulate route.  `getUser` models
`supabaseAuth.getUser` (`none` = auth error or no user); `gemini` the
backend result; `uploadError` the storage upload error channel;
`listResult` the post-write existence check (`none` = list error);
`ttlDaysEnv` the parsed `NEXT_PUBLIC_SHARE_LINK_TTL_DAYS` (`none` = unset or
empty, in which case the code falls back to `'1'`); `sign` is
`createSignedUrl`; `jobInsertError` whether the jobs insert fails;
`isLiveMode` `geminiClient.isLiveMode`; `freshId` `crypto.randomUUID()`;
`startTime`/`now` the request clock. -/
structure SimDeps where
  getUser : String → Option User
  gemini : GeminiResult
  uploadError : Option String
  listResult : Option (List String)
  ttlDaysEnv : Option ℚ
  sign : String → Int → Except String SignedUrlData
  jobInsertError : Bool
  isLiveMode : Bool
  freshId : String
  startTime : Nat
  now : Nat

/-- The side effects of one simulate invocation. -/
structure SimEffects where
  geminiCalls : Nat := 0
  uploads : List (String × List Nat) := []
  signCalls : List (String × Int) := []
  jobInserts : List Job := []
  metricInserts : List MetricRow := []
deriving DecidableEq

/-- `recordSimulationMetrics`: the row handed to the `fit.sim_metrics` insert. -/
def recordSimulationMetrics (jobId : Option String) (userId : String)
    (durationMs : Nat) (status details : String) (now : Nat) : MetricRow :=
  { job_id := jobId
    user_id := userId
    duration_ms := durationMs
    status := status
    details := details
    created_at := now }

/-- The ownership condition the simulate route applies to each supplied path:
`!(path falsy) && path.startsWith(user.id + "/")`. -/
def ownershipOk (userId path : String) : Bool :=
  !(path == "") && jsStartsWith path (userId ++ "/")

/-- `POST /api/fit/simulate`.  `authHeader` is the `authorization` header;
`body` is the parsed JSON body (`.error msg` = `request.json()` threw, which
the route's `catch` turns into a 500 after recording metrics). -/
def simulateRoute (deps : SimDeps) (authHeader : Option String)
    (body : Except String SimBody) : Response × SimEffects :=
  match authHeader with
  | none =>
    ({ status := 401, error := some "Missing or invalid authorization header" }, {})
  | some header =>
    if ¬ jsStartsWith header "Bearer " then
      ({ status := 401, error := some "Missing or invalid authorization header" }, {})
    else
      let token := tokenOf header
      match deps.getUser token with
      | none =>
        ({ status := 401, error := some "Invalid or expired token" }, {})
      | some user =>
        match body with
        | .error msg =>
          -- `request.json()` threw: caught by the route-level catch with
          -- `user` already resolved.
          let duration := deps.now - deps.startTime
          ({ status := 500
             success := some false
             error := some "Internal server error during simulation"
             duration_ms := some duration },
           { metricInserts := [recordSimulationMetrics none user.id duration
               "error" ("Error: " ++ msg) deps.now] })
        | .ok b =>
          if ownershipOk user.id b.personPath = false then
            let duration := deps.now - deps.startTime
            ({ status := 403
               error := some "Ownership validation failed"
               details := some ("Person path must start with \"" ++ user.id ++
                 "/\" but got: " ++
                 (if b.personPath == "" then "empty" else b.personPath)) },
             { metricInserts := [recordSimulationMetrics none user.id duration
                 "denied" "Person path ownership validation failed" deps.now] })
          else
            match b.itemPaths.find? (fun p => !ownershipOk user.id p) with
            | some badPath =>
              let duration := deps.now - deps.startTime
              ({ status := 403
                 error := some "Ownership validation failed"
                 details := some ("Item path must start with \"" ++ user.id ++
                   "/\" but got: " ++
                   (if badPath == "" then "empty" else badPath)) },
               { metricInserts := [recordSimulationMetrics none user.id duration
                   "denied" "Item path ownership validation failed" deps.now] })
            | none =>
              let jobId := deps.freshId
              if ¬ deps.gemini.success then
                let duration := deps.now - deps.startTime
                ({ status := 500
                   success := some false
                   error := some "Image generation failed"
                   details := some (optStr deps.gemini.error)
                   duration_ms := some duration },
                 { geminiCalls := 1
                   metricInserts := [recordSimulationMetrics (some jobId) user.id
                     duration "error"
                     ("Gemini generation failed: " ++ optStr deps.gemini.error)
                     deps.now] })
              else
                let previewPath := user.id ++ "/" ++ jobId ++ ".webp"
                let buf := deps.gemini.imageBuffer.getD []
                match deps.uploadError with
                | some upMsg =>
                  let duration := deps.now - deps.startTime
                  ({ status := 500
                     success := some false
                     error := some "Failed to store preview image"
                     details := some ("Upload to fit-previews bucket failed: " ++ upMsg)
                     duration_ms := some duration },
                   { geminiCalls := 1
                     uploads := [(previewPath, buf)]
                     metricInserts := [recordSimulationMetrics (some jobId) user.id
                       duration "error" ("Storage upload failed: " ++ upMsg)
                       deps.now] })
                | none =>
                  if deps.listResult = none ∨ deps.listResult = some [] then
                    let duration := deps.now - deps.startTime
                    ({ status := 500
                       success := some false
                       error := some "Failed to verify preview image storage"
                       details := some "Preview image was not found after upload"
                       duration_ms := some duration },
                     { geminiCalls := 1
                       uploads := [(previewPath, buf)]
                       metricInserts := [recordSimulationMetrics (some jobId) user.id
                         duration "error" "Preview image upload verification failed"
                         deps.now] })
                  else
                    let days := deps.ttlDaysEnv.getD 1
                    let expiresIn := expiresInSec days
                    match deps.sign previewPath expiresIn with
                    | .error signMsg =>
                      let duration := deps.now - deps.startTime
                      ({ status := 500
                         success := some false
                         error := some "Failed to create preview URL"
                         details := some signMsg
                         duration_ms := some duration },
                       { geminiCalls := 1
                         uploads := [(previewPath, buf)]
                         signCalls := [(previewPath, expiresIn)]
                         metricInserts := [recordSimulationMetrics (some jobId)
                           user.id duration "error"
                           ("Signed URL creation failed: " ++ signMsg) deps.now] })
                    | .ok signedUrlData =>
                      let previewUrl := signedUrlData.signedUrl
                      let status := if deps.isLiveMode then "completed"
                        else "completed_stub"
                      let duration := deps.now - deps.startTime
                      let jobRow : Job :=
                        { id := jobId
                          user_id := user.id
                          app_id := "fit"
                          person_path := b.personPath
                          item_paths := b.itemPaths
                          pose_id := none
                          preview_path := some previewPath
                          duration_ms := duration
                          status := status
                          created_at := deps.now }
                      -- `jobInsertError` is only logged; the insert is
                      -- attempted either way and the request succeeds.
                      ({ status := 200
                         success := some true
                         previewUrl := some previewUrl
                         jobId := some jobId
                         duration_ms := some duration },
                       { geminiCalls := 1
                         uploads := [(previewPath, buf)]
                         signCalls := [(previewPath, expiresIn)]
                         jobInserts := [jobRow]
                         metricInserts := [recordSimulationMetrics (some jobId)
                           user.id duration status "Simulation completed"
                           deps.now] })

/-! ## The signed-access gateway routes

`POST /api/fit/share`, the view-job `GET` route, `GET
/api/fit/download/[job_id]` and the preview-bytes `POST` route share their
collaborators: token resolution, the id-only `fit.jobs` lookup
(`.eq('id', id).single()`, `none` = error or no row), the configured TTL in
days, `createSignedUrl`, and `storage.download`. -/

structure GatewayDeps where
  getUser : String → Option User
  lookupJob : String → Option Job
  ttlDays : ℚ
  sign : String → Int → Except String SignedUrlData
  download : String → Except String (List Nat)
  now : Nat

/-- Side effects of one gateway invocation. -/
structure GatewayEffects where
  signCalls : List (String × Int) := []
  downloads : List String := []
deriving DecidableEq

/-- Request body carrying a job id (`share` and preview-bytes routes). -/
structure JobIdBody where
  job_id : String
deriving DecidableEq

/-- `POST /api/fit/share`. -/
def shareRoute (deps : GatewayDeps) (authHeader : Option String)
    (body : Except String JobIdBody) : Response × GatewayEffects :=
  match authHeader with
  | none =>
    ({ status := 401, error := some "Missing or invalid authorization header" }, {})
  | some header =>
    if ¬ jsStartsWith header "Bearer " then
      ({ status := 401, error := some "Missing or invalid authorization header" }, {})
    else
      match deps.getUser (tokenOf header) with
      | none => ({ status := 401, error := some "Invalid or expired token" }, {})
      | some user =>
        match body with
        | .error _ =>
          ({ status := 500
             success := some false
             error := some "Internal server error during sharing" }, {})
        | .ok b =>
          if b.job_id == "" then
            ({ status := 400, error := some "job_id is required" }, {})
          else
            match deps.lookupJob b.job_id with
            | none => ({ status := 404, error := some "Job not found" }, {})
            | some job =>
              if job.user_id ≠ user.id then
                ({ status := 403, error := some "Access denied" }, {})
              else
                match job.preview_path with
                | none =>
                  ({ status := 404
                     error := some "No preview available for this job" }, {})
                | some p =>
                  if p == "" then
                    ({ status := 404
                       error := some "No preview available for this job" }, {})
                  else
                    let expiresIn := expiresInSec deps.ttlDays
                    match deps.sign p expiresIn with
                    | .error m =>
                      ({ status := 500
                         success := some false
                         error := some "Failed to create shareable link"
                         details := some m },
                       { signCalls := [(p, expiresIn)] })
                    | .ok d =>
                      ({ status := 200
                         success := some true
                         signedUrl := some d.signedUrl
                         expiresAt := some ((deps.now : Int) + expiresIn * 1000) },
                       { signCalls := [(p, expiresIn)] })

/-- The view-job `GET` route (`/api/fit/jobs/[job_id]`): returns the job row
with a signed URL when one can be minted; a signed-URL failure is swallowed
(`signedUrl`/`expiresAt` stay `null`, the response is still a success). -/
def viewRoute (deps : GatewayDeps) (jobIdParam : String)
    (authHeader : Option String) : Response × GatewayEffects :=
  if jobIdParam == "" then
    ({ status := 400, success := some false, error := some "Job ID is required" }, {})
  else
    match authHeader with
    | none =>
      ({ status := 401, error := some "Missing or invalid authorization header" }, {})
    | some header =>
      if ¬ jsStartsWith header "Bearer " then
        ({ status := 401, error := some "Missing or invalid authorization header" }, {})
      else
        match deps.getUser (tokenOf header) with
        | none => ({ status := 401, error := some "Invalid or expired token" }, {})
        | some user =>
          match deps.lookupJob jobIdParam with
          | none =>
            ({ status := 404, success := some false, error := some "Job not found" }, {})
          | some job =>
            if job.user_id ≠ user.id then
              ({ status := 403, success := some false, error := some "Access denied" }, {})
            else
              match job.preview_path with
              | none => ({ status := 200, success := some true, job := some job }, {})
              | some p =>
                if p == "" then
                  ({ status := 200, success := some true, job := some job }, {})
                else
                  let expiresIn := expiresInSec deps.ttlDays
                  match deps.sign p expiresIn with
                  | .error _ =>
                    ({ status := 200, success := some true, job := some job },
                     { signCalls := [(p, expiresIn)] })
                  | .ok d =>
                    ({ status := 200
                       success := some true
                       job := some job
                       signedUrl := some d.signedUrl
                       expiresAt := some ((deps.now : Int) + expiresIn * 1000) },
                     { signCalls := [(p, expiresIn)] })

/-- `GET /api/fit/download/[job_id]`: proxies the artifact bytes with an
attachment filename (response headers are not modelled; `bytes` carries the
body). -/
def downloadRoute (deps : GatewayDeps) (jobIdParam : String)
    (authHeader : Option String) : Response × GatewayEffects :=
  if jobIdParam == "" then
    ({ status := 400, error := some "Job ID is required" }, {})
  else
    match authHeader with
    | none => ({ status := 401, error := some "Invalid or expired token" }, {})
    | some header =>
      if ¬ jsStartsWith header "Bearer " then
        ({ status := 401, error := some "Invalid or expired token" }, {})
      else
        match deps.getUser (tokenOf header) with
        | none => ({ status := 401, error := some "Invalid or expired token" }, {})
        | some user =>
          match deps.lookupJob jobIdParam with
          | none => ({ status := 404, error := some "Job not found" }, {})
          | some job =>
            if job.user_id ≠ user.id then
              ({ status := 403, error := some "Access denied" }, {})
            else
              match job.preview_path with
              | none =>
                ({ status := 404
                   error := some "No preview available for this job" }, {})
              | some p =>
                if p == "" then
                  ({ status := 404
                     error := some "No preview available for this job" }, {})
                else
                  match deps.download p with
                  | .error _ =>
                    ({ status := 500, error := some "Failed to download file" },
                     { downloads := [p] })
                  | .ok data =>
                    ({ status := 200, bytes := some data },
                     { downloads := [p] })

/-- The preview-bytes `POST` route: proxies the artifact bytes with no-store
caching headers (headers are not modelled). -/
def previewRoute (deps : GatewayDeps) (authHeader : Option String)
    (body : Except String JobIdBody) : Response × GatewayEffects :=
  match authHeader with
  | none =>
    ({ status := 401, error := some "Missing or invalid authorization header" }, {})
  | some header =>
    if ¬ jsStartsWith header "Bearer " then
      ({ status := 401, error := some "Missing or invalid authorization header" }, {})
    else
      match deps.getUser (tokenOf header) with
      | none => ({ status := 401, error := some "Invalid or expired token" }, {})
      | some user =>
        match body with
        | .error _ =>
          ({ status := 500
             error := some "Internal server error during preview loading" }, {})
        | .ok b =>
          if b.job_id == "" then
            ({ status := 400, error := some "job_id is required" }, {})
          else
            match deps.lookupJob b.job_id with
            | none => ({ status := 404, error := some "Job not found" }, {})
            | some job =>
              if job.user_id ≠ user.id then
                ({ status := 403, error := some "Access denied" }, {})
              else
                match job.preview_path with
                | none =>
                  ({ status := 404
                     error := some "No preview available for this job" }, {})
                | some p =>
                  if p == "" then
                    ({ status := 404
                       error := some "No preview available for this job" }, {})
                  else
                    match deps.download p with
                    | .error _ =>
                      ({ status := 500
                         error := some "Failed to load preview image" },
                       { downloads := [p] })
                    | .ok data =>
                      ({ status := 200, bytes := some data },
                       { downloads := [p] })

/-! ## Claims -/

lemma shouldRetry_of_ge (cfg : PerformanceConfig) (t0 now : ℚ) (attempt : Nat)
    (hge : cfg.retryAttempts ≤ attempt) : shouldRetry cfg t0 now attempt = false := by
  simp [shouldRetry, hge]

lemma executeWithRetryAux_break (cfg : PerformanceConfig)
    (ops : Nat → AttemptBehavior α) (rand : Nat → ℚ) (t0 : ℚ)
    (attempt r : Nat) (now : ℚ) (last : Option String) (calls : Nat)
    (hge : cfg.retryAttempts ≤ attempt) (m : String)
    (hfail : (attemptOutcome cfg (ops attempt)).2 = .error m) :
    ∃ m' calls' tEnd,
      executeWithRetryAux cfg ops rand t0 attempt (r + 1) now last calls =
        ⟨.error ⟨cfg.retryAttempts, some m', tEnd - t0⟩, calls', tEnd⟩ ∧
      calls ≤ calls' ∧ calls' ≤ calls + 1 ∧ (calls' = calls + 1 → m' = m) := by
  rcases hA : attemptOutcome cfg (ops attempt) with ⟨dt, res⟩
  rw [hA] at hfail
  simp only at hfail
  subst hfail
  by_cases hw : isWithinLimits cfg t0 now
  · refine ⟨m, calls + 1, now + dt, ?_, by omega, by omega, fun _ => rfl⟩
    simp [executeWithRetryAux, hw, hA,
      shouldRetry_of_ge cfg t0 (now + dt) attempt hge, getElapsedMs]
  · refine ⟨"Operation exceeded maximum duration of " ++
        toString cfg.maxDurationMs ++ "ms", calls, now, ?_, by omega, by omega,
        by omega⟩
    simp [executeWithRetryAux, hw,
      shouldRetry_of_ge cfg t0 now attempt hge, getElapsedMs]

/-- **C4.** With `retryAttempts = 2`, if the first two invocations of the
wrapped operation fail (reject or time out), `executeWithRetry` invokes the
operation at most twice and throws the aggregate error naming the configured
attempt count, the last recorded failure message and the total elapsed time;
when both invocations ran, the reported failure is the second one's.  It never
resolves successfully. -/
theorem executeWithRetry_exhausts {α : Type} (cfg : PerformanceConfig)
    (ops : Nat → AttemptBehavior α) (rand : Nat → ℚ) (t0 : ℚ)
    (m1 m2 : String)
    (hcfg : cfg.retryAttempts = 2)
    (h1 : (attemptOutcome cfg (ops 1)).2 = .error m1)
    (h2 : (attemptOutcome cfg (ops 2)).2 = .error m2) :
    (executeWithRetry cfg ops rand t0).calls ≤ 2 ∧
    (∃ m, (executeWithRetry cfg ops rand t0).result =
      .error ⟨2, some m, (executeWithRetry cfg ops rand t0).endTime - t0⟩) ∧
    ((executeWithRetry cfg ops rand t0).calls = 2 →
      (executeWithRetry cfg ops rand t0).result =
        .error ⟨2, some m2, (executeWithRetry cfg ops rand t0).endTime - t0⟩) := by
  have e : executeWithRetry cfg ops rand t0 =
      executeWithRetryAux cfg ops rand t0 1 (1 + 1) t0 none 0 := by
    rw [executeWithRetry, hcfg]
  rcases hA1 : attemptOutcome cfg (ops 1) with ⟨dt1, res1⟩
  rw [hA1] at h1
  simp only at h1
  subst h1
  by_cases hw : isWithinLimits cfg t0 t0
  · by_cases hs : shouldRetry cfg t0 (t0 + dt1) 1
    · have estep : executeWithRetryAux cfg ops rand t0 1 (1 + 1) t0 none 0 =
          executeWithRetryAux cfg ops rand t0 2 (0 + 1)
            (t0 + dt1 + getRetryDelay cfg (rand 1) 1) (some m1) 1 := by
        simp [executeWithRetryAux, hw, hA1, hs]
      obtain ⟨m', calls', tEnd, heq, hge, hle, him⟩ :=
        executeWithRetryAux_break cfg ops rand t0 2 0
          (t0 + dt1 + getRetryDelay cfg (rand 1) 1) (some m1) 1
          (by omega) m2 h2
      rw [e, estep, heq]
      refine ⟨?_, ⟨m', ?_⟩, fun hc => ?_⟩
      · show calls' ≤ 2
        omega
      · simp only [hcfg]
      · have hm : m' = m2 := him hc
        simp only [hcfg, hm]
    · have estep : executeWithRetryAux cfg ops rand t0 1 (1 + 1) t0 none 0 =
          ⟨.error ⟨cfg.retryAttempts, some m1, (t0 + dt1) - t0⟩, 1, t0 + dt1⟩ := by
        simp [executeWithRetryAux, hw, hA1, hs, getElapsedMs]
      rw [e, estep]
      refine ⟨?_, ⟨m1, ?_⟩, fun hc => ?_⟩
      · show (1 : Nat) ≤ 2
        omega
      · simp only [hcfg]
      · exact absurd (show (1 : Nat) = 2 from hc) (by omega)
  · by_cases hs : shouldRetry cfg t0 t0 1
    · have estep : executeWithRetryAux cfg ops rand t0 1 (1 + 1) t0 none 0 =
          executeWithRetryAux cfg ops rand t0 2 (0 + 1)
            (t0 + getRetryDelay cfg (rand 1) 1)
            (some ("Operation exceeded maximum duration of " ++
              toString cfg.maxDurationMs ++ "ms")) 0 := by
        simp [executeWithRetryAux, hw, hs]
      obtain ⟨m', calls', tEnd, heq, hge, hle, him⟩ :=
        executeWithRetryAux_break cfg ops rand t0 2 0
          (t0 + getRetryDelay cfg (rand 1) 1)
          (some ("Operation exceeded maximum duration of " ++
            toString cfg.maxDurationMs ++ "ms")) 0
          (by omega) m2 h2
      rw [e, estep, heq]
      refine ⟨?_, ⟨m', ?_⟩, fun hc => ?_⟩
      · show calls' ≤ 2
        omega
      · simp only [hcfg]
      · exact absurd (show calls' = 2 from hc) (by omega)
    · have estep : executeWithRetryAux cfg ops rand t0 1 (1 + 1) t0 none 0 =
          ⟨.error ⟨cfg.retryAttempts,
            some ("Operation exceeded maximum duration of " ++
              toString cfg.maxDurationMs ++ "ms"), t0 - t0⟩, 0, t0⟩ := by
        simp [executeWithRetryAux, hw, hs, getElapsedMs]
      rw [e, estep]
      refine ⟨?_, ⟨("Operation exceeded maximum duration of " ++
          toString cfg.maxDurationMs ++ "ms"), ?_⟩, fun hc => ?_⟩
      · show (0 : Nat) ≤ 2
        omega
      · simp only [hcfg]
      · exact absurd (show (0 : Nat) = 2 from hc) (by omega)

/-- Witness for C4: the default configuration and an operation that always
rejects immediately with message "boom". -/
theorem executeWithRetry_exhausts_witness :
    (executeWithRetry DEFAULT_PERFORMANCE_CONFIG
        (fun _ => (⟨10, .error "boom"⟩ : AttemptBehavior Unit))
        (fun _ => 0) 0).calls ≤ 2 ∧
    (∃ m, (executeWithRetry DEFAULT_PERFORMANCE_CONFIG
        (fun _ => (⟨10, .error "boom"⟩ : AttemptBehavior Unit))
        (fun _ => 0) 0).result =
      .error ⟨2, some m, (executeWithRetry DEFAULT_PERFORMANCE_CONFIG
        (fun _ => (⟨10, .error "boom"⟩ : AttemptBehavior Unit))
        (fun _ => 0) 0).endTime - 0⟩) ∧
    ((executeWithRetry DEFAULT_PERFORMANCE_CONFIG
        (fun _ => (⟨10, .error "boom"⟩ : AttemptBehavior Unit))
        (fun _ => 0) 0).calls = 2 →
      (executeWithRetry DEFAULT_PERFORMANCE_CONFIG
        (fun _ => (⟨10, .error "boom"⟩ : AttemptBehavior Unit))
        (fun _ => 0) 0).result =
        .error ⟨2, some "boom", (executeWithRetry DEFAULT_PERFORMANCE_CONFIG
          (fun _ => (⟨10, .error "boom"⟩ : AttemptBehavior Unit))
          (fun _ => 0) 0).endTime - 0⟩) :=
  executeWithRetry_exhausts DEFAULT_PERFORMANCE_CONFIG
    (fun _ => (⟨10, .error "boom"⟩ : AttemptBehavior Unit)) (fun _ => 0) 0
    "boom" "boom" rfl rfl rfl

/-- **C5.** For every attempt number `n ≥ 1`, `PerformanceMonitor.shouldRetry n`
returns `true` iff both (a) `n < retryAttempts` and (b) the elapsed time since
`start()` plus `retryDelayMs` is strictly less than `maxDurationMs`. -/
theorem shouldRetry_iff (cfg : PerformanceConfig) (startTime now : ℚ) (n : Nat)
    (_h : 1 ≤ n) :
    shouldRetry cfg startTime now n = true ↔
      (n < cfg.retryAttempts ∧
        getElapsedMs startTime now + cfg.retryDelayMs < cfg.maxDurationMs) := by
  rw [shouldRetry]
  by_cases hc : cfg.retryAttempts ≤ n
  · simp [hc, Nat.not_lt.mpr hc]
  · simp [hc, Nat.not_le.mp hc]

/-- Witness for C5 at `n = 1` with the default configuration. -/
theorem shouldRetry_iff_witness :
    1 ≤ 1 ∧
      (shouldRetry DEFAULT_PERFORMANCE_CONFIG 0 100 1 = true ↔
        (1 < DEFAULT_PERFORMANCE_CONFIG.retryAttempts ∧
          getElapsedMs 0 100 + DEFAULT_PERFORMANCE_CONFIG.retryDelayMs <
            DEFAULT_PERFORMANCE_CONFIG.maxDurationMs)) :=
  ⟨le_refl 1, shouldRetry_iff DEFAULT_PERFORMANCE_CONFIG 0 100 1 (le_refl 1)⟩

lemma validateFile_eq_nil (f : JsFile) :
    validateFile f = [] ↔
      (f.type ∈ FILE_CONSTRAINTS.allowedTypes ∧ f.size ≤ 8 * 1024 * 1024) := by
  rw [validateFile]
  by_cases ht : FILE_CONSTRAINTS.allowedTypes.contains f.type <;>
  by_cases hs : f.size > FILE_CONSTRAINTS.hardMaxSize <;>
  simp_all [FILE_CONSTRAINTS]

lemma validateCategoryConstraints_eq_nil (files : List FileUploadMetadata) :
    validateCategoryConstraints files = [] ↔
      ((files.filter fun f => f.category == UploadCategory.person).length = 1 ∧
        (files.filter fun f => f.category == UploadCategory.item).length ≤ 3) := by
  rw [validateCategoryConstraints]
  set pc := (files.filter fun f => f.category == UploadCategory.person).length with hpc
  set ic := (files.filter fun f => f.category == UploadCategory.item).length with hic
  by_cases h1 : pc < UPLOAD_CONSTRAINTS.person.min
  · simp [h1, UPLOAD_CONSTRAINTS] at *
    omega
  · by_cases h2 : pc > UPLOAD_CONSTRAINTS.person.max
    · simp [h1, h2, UPLOAD_CONSTRAINTS] at *
      omega
    · by_cases h3 : ic > UPLOAD_CONSTRAINTS.items.max
      · simp [h1, h2, h3, UPLOAD_CONSTRAINTS] at *
        omega
      · simp [h1, h2, h3, UPLOAD_CONSTRAINTS] at *
        omega

/-- **C8.** `validateUpload files` is valid with an empty error list iff the
set has exactly one `person` file, at most three `item` files, and every
file's declared MIME type is on the allow-list with size at most
`8 * 1024 * 1024` bytes; in particular the 5 MiB soft ceiling never by itself
causes rejection. -/
theorem validateUpload_isValid_iff (files : List FileUploadMetadata) :
    ((validateUpload files).isValid = true ∧ (validateUpload files).errors = []) ↔
      ((files.filter fun f => f.category == UploadCategory.person).length = 1 ∧
        (files.filter fun f => f.category == UploadCategory.item).length ≤ 3 ∧
        ∀ f ∈ files, f.file.type ∈ FILE_CONSTRAINTS.allowedTypes ∧
          f.file.size ≤ 8 * 1024 * 1024) := by
  have hv : (validateUpload files).isValid =
      ((validateUpload files).errors.length == 0) := rfl
  have he : (validateUpload files).errors =
      (files.flatMap fun f => validateFile f.file) ++
        validateCategoryConstraints files := rfl
  rw [hv, he]
  simp only [beq_iff_eq, List.length_eq_zero, List.append_eq_nil, and_self_left,
    List.flatMap_eq_nil_iff, validateFile_eq_nil, validateCategoryConstraints_eq_nil]
  tauto

/-- Sample collaborators for the submission route: token `tok1` resolves to
user `u1`, every external call succeeds. -/
def sampleSimDeps : SimDeps :=
  { getUser := fun t => if t = "tok1" then some ⟨"u1"⟩ else none
    gemini := { success := true, error := none, imageBuffer := some [1, 2, 3] }
    uploadError := none
    listResult := some ["f"]
    ttlDaysEnv := some 1
    sign := fun _ _ => .ok ⟨"signed-url"⟩
    jobInsertError := false
    isLiveMode := false
    freshId := "job-1"
    startTime := 1000
    now := 1500 }

/-- **C2.** A submission whose person path or any item path fails the
ownership check (empty or not prefixed by the caller's id and `/`) responds
403 "Ownership validation failed", records exactly one metrics row with
status `denied`, and performs no backend call, no storage write, and no jobs
insert. -/
theorem simulate_ownership_denied (deps : SimDeps) (h : String) (b : SimBody)
    (u : User)
    (hhdr : jsStartsWith h "Bearer " = true)
    (hu : deps.getUser (tokenOf h) = some u)
    (hbad : ownershipOk u.id b.personPath = false ∨
      ∃ p ∈ b.itemPaths, ownershipOk u.id p = false) :
    (simulateRoute deps (some h) (.ok b)).1.status = 403 ∧
    (simulateRoute deps (some h) (.ok b)).1.error =
      some "Ownership validation failed" ∧
    (simulateRoute deps (some h) (.ok b)).2.metricInserts.length = 1 ∧
    (∀ r ∈ (simulateRoute deps (some h) (.ok b)).2.metricInserts,
      r.status = "denied") ∧
    (simulateRoute deps (some h) (.ok b)).2.geminiCalls = 0 ∧
    (simulateRoute deps (some h) (.ok b)).2.uploads = [] ∧
    (simulateRoute deps (some h) (.ok b)).2.jobInserts = [] := by
  rcases hP : ownershipOk u.id b.personPath with _ | _
  · simp [simulateRoute, hhdr, hu, hP, recordSimulationMetrics]
  · have hex : ∃ p ∈ b.itemPaths, ownershipOk u.id p = false := by
      rcases hbad with hb | hb
      · rw [hP] at hb
        exact absurd hb (by simp)
      · exact hb
    obtain ⟨bad, hmem, hbadp⟩ := hex
    have hF : ∃ q, b.itemPaths.find? (fun p => !ownershipOk u.id p) = some q := by
      rcases hq : b.itemPaths.find? (fun p => !ownershipOk u.id p) with _ | q
      · exfalso
        have := List.find?_eq_none.mp hq bad hmem
        simp [hbadp] at this
      · exact ⟨q, rfl⟩
    obtain ⟨q, hq⟩ := hF
    simp [simulateRoute, hhdr, hu, hP, hq, recordSimulationMetrics]

/-- Witness for C2: user `u1` submits a person path in `u2`'s namespace. -/
theorem simulate_ownership_denied_witness :
    (simulateRoute sampleSimDeps (some "Bearer tok1")
      (.ok ⟨"u2/abc.png", []⟩)).1.status = 403 ∧
    (simulateRoute sampleSimDeps (some "Bearer tok1")
      (.ok ⟨"u2/abc.png", []⟩)).1.error = some "Ownership validation failed" ∧
    (simulateRoute sampleSimDeps (some "Bearer tok1")
      (.ok ⟨"u2/abc.png", []⟩)).2.metricInserts.length = 1 ∧
    (∀ r ∈ (simulateRoute sampleSimDeps (some "Bearer tok1")
      (.ok ⟨"u2/abc.png", []⟩)).2.metricInserts, r.status = "denied") ∧
    (simulateRoute sampleSimDeps (some "Bearer tok1")
      (.ok ⟨"u2/abc.png", []⟩)).2.geminiCalls = 0 ∧
    (simulateRoute sampleSimDeps (some "Bearer tok1")
      (.ok ⟨"u2/abc.png", []⟩)).2.uploads = [] ∧
    (simulateRoute sampleSimDeps (some "Bearer tok1")
      (.ok ⟨"u2/abc.png", []⟩)).2.jobInserts = [] :=
  simulate_ownership_denied sampleSimDeps "Bearer tok1" ⟨"u2/abc.png", []⟩
    ⟨"u1"⟩ (by decide) (by decide) (Or.inl (by decide))

/-- Counterexample to C7 as stated: an invocation with no authorization
header returns 401 and inserts zero metrics rows, so "every invocation
inserts exactly one metrics row" fails. -/
theorem simulate_metrics_missing_auth_cex :
    (simulateRoute sampleSimDeps none (.ok ⟨"u1/p.png", []⟩)).2.metricInserts =
      [] := rfl

/-- **C7 (amended).** Every invocation of the submission route whose bearer
token resolves to a user performs exactly one metrics insert, whatever the
outcome; invocations rejected during authentication perform none. -/
theorem simulate_metrics_once (deps : SimDeps) (h : String)
    (body : Except String SimBody) (u : User)
    (hhdr : jsStartsWith h "Bearer " = true)
    (hu : deps.getUser (tokenOf h) = some u) :
    (simulateRoute deps (some h) body).2.metricInserts.length = 1 := by
  rcases body with msg | b
  · simp [simulateRoute, hhdr, hu]
  · rcases hP : ownershipOk u.id b.personPath with _ | _
    · simp [simulateRoute, hhdr, hu, hP]
    · rcases hq : b.itemPaths.find? (fun p => !ownershipOk u.id p) with _ | q
      · rcases hg : deps.gemini.success with _ | _
        · simp [simulateRoute, hhdr, hu, hP, hq, hg]
        · rcases hup : deps.uploadError with _ | m
          · by_cases hl : deps.listResult = none ∨ deps.listResult = some []
            · simp [simulateRoute, hhdr, hu, hP, hq, hg, hup, hl]
            · rcases hs : deps.sign (u.id ++ "/" ++ deps.freshId ++ ".webp")
                  (expiresInSec (deps.ttlDaysEnv.getD 1)) with m | d
              · simp [simulateRoute, hhdr, hu, hP, hq, hg, hup, hl, hs]
              · simp [simulateRoute, hhdr, hu, hP, hq, hg, hup, hl, hs]
          · simp [simulateRoute, hhdr, hu, hP, hq, hg, hup]
      · simp [simulateRoute, hhdr, hu, hP, hq]

/-- Witness for C7 (amended): an authenticated successful submission records
one metrics row. -/
theorem simulate_metrics_once_witness :
    (simulateRoute sampleSimDeps (some "Bearer tok1")
      (.ok ⟨"u1/p.png", []⟩)).2.metricInserts.length = 1 :=
  simulate_metrics_once sampleSimDeps "Bearer tok1" (.ok ⟨"u1/p.png", []⟩)
    ⟨"u1"⟩ (by decide) (by decide)

/-- Sample submission collaborators whose jobs-table insert fails. -/
def sampleSimDepsJobFail : SimDeps :=
  { sampleSimDeps with jobInsertError := true }

/-- **C9.** When generation, the storage upload, the existence verification
and signed-URL minting all succeed but the jobs-table insert fails, the
submission route still responds 200 with `success`, the job id, the signed
preview URL and `duration_ms`; the insert failure is not surfaced. -/
theorem simulate_success_despite_job_insert_failure (deps : SimDeps)
    (h : String) (b : SimBody) (u : User)
    (hhdr : jsStartsWith h "Bearer " = true)
    (hu : deps.getUser (tokenOf h) = some u)
    (hP : ownershipOk u.id b.personPath = true)
    (hI : b.itemPaths.find? (fun p => !ownershipOk u.id p) = none)
    (hg : deps.gemini.success = true)
    (hup : deps.uploadError = none)
    (hl : ¬ (deps.listResult = none ∨ deps.listResult = some []))
    (d : SignedUrlData)
    (hs : deps.sign (u.id ++ "/" ++ deps.freshId ++ ".webp")
      (expiresInSec (deps.ttlDaysEnv.getD 1)) = .ok d)
    (_hJ : deps.jobInsertError = true) :
    (simulateRoute deps (some h) (.ok b)).1 =
      { status := 200
        success := some true
        previewUrl := some d.signedUrl
        jobId := some deps.freshId
        duration_ms := some (deps.now - deps.startTime) } := by
  simp [simulateRoute, hhdr, hu, hP, hI, hg, hup, hl, hs]

/-- Witness for C9: a fully successful generation with a failing jobs insert
still returns 200. -/
theorem simulate_success_despite_job_insert_failure_witness :
    (simulateRoute sampleSimDepsJobFail (some "Bearer tok1")
      (.ok ⟨"u1/p.png", []⟩)).1 =
      { status := 200
        success := some true
        previewUrl := some "signed-url"
        jobId := some "job-1"
        duration_ms := some 500 } :=
  simulate_success_despite_job_insert_failure sampleSimDepsJobFail
    "Bearer tok1" ⟨"u1/p.png", []⟩ ⟨"u1"⟩ (by decide) (by decide) (by decide)
    (by decide) (by decide) (by decide) (by decide) ⟨"signed-url"⟩ (by rfl)
    (by rfl)

/-- Counterexample to C10 as stated: user ids are strings, and for
`A = "u1"`, `B = "u1/evil"` (a distinct id of which `A` is a strict prefix)
the path `B ++ "/" ++ "img.png"` inside `B`'s namespace passes `A`'s
ownership check, and the submission by `A` is accepted end to end. -/
theorem ownership_prefix_collision_cex :
    "u1" ≠ ("u1/evil" : String) ∧
    startsWithChars "u1".data "u1/evil".data = true ∧
    ownershipOk "u1" ("u1/evil" ++ "/" ++ "img.png") = true ∧
    (simulateRoute sampleSimDeps (some "Bearer tok1")
      (.ok ⟨"u1/evil" ++ "/" ++ "img.png", []⟩)).1.status = 200 :=
  ⟨by decide, by decide, by decide, by decide⟩

/-- **C10 (amended).** The ownership check accepts a path only if it starts
with the caller's id followed by `/`; consequently, whenever id `A` is a
strict prefix of id `B` and `B` does not itself continue with the `/`
separator right after `A` (equivalently, `A ++ "/"` is not a prefix of `B`),
every path inside `B`'s namespace is rejected for a caller authenticated as
`A`. -/
theorem ownership_prefix_safe (A B suffix : String)
    (hpre : startsWithChars A.data B.data = true)
    (hne : A ≠ B)
    (hsep : startsWithChars (A ++ "/").data B.data = false) :
    ownershipOk A (B ++ "/" ++ suffix) = false := by
  obtain ⟨r, hr⟩ := (startsWithChars_iff _ _).mp hpre
  have hrne : r ≠ [] := by
    intro h0
    subst h0
    apply hne
    apply String.ext
    rw [← hr, List.append_nil]
  rcases r with _ | ⟨c, r'⟩
  · exact absurd rfl hrne
  have hc : c ≠ '/' := by
    intro hc0
    subst hc0
    have hpf : (A ++ "/").data <+: B.data := by
      rw [String.data_append, ← hr]
      have hslash : ("/" : String).data = ['/'] := rfl
      rw [hslash]
      exact (List.prefix_append_right_inj A.data).mpr ⟨r', rfl⟩
    rw [(startsWithChars_iff _ _).symm.mp hpf] at hsep
    exact Bool.noConfusion hsep
  have hns : jsStartsWith (B ++ "/" ++ suffix) (A ++ "/") = false := by
    rcases hB : jsStartsWith (B ++ "/" ++ suffix) (A ++ "/") with _ | _
    · rfl
    · exfalso
      have hp := (jsStartsWith_iff _ _).mp hB
      rw [String.data_append, String.data_append, String.data_append] at hp
      have hslash : ("/" : String).data = ['/'] := rfl
      rw [hslash, ← hr, List.append_assoc, List.append_assoc] at hp
      have hp' := (List.prefix_append_right_inj A.data).mp hp
      rw [List.cons_append] at hp'
      exact hc ((List.cons_prefix_cons.mp hp').1.symm)
  rw [ownershipOk, hns, Bool.and_false]

/-- Witness for C10 (amended): `A = "u1"`, `B = "u12"`; the path
`"u12/img.png"` is rejected for caller `u1`. -/
theorem ownership_prefix_safe_witness :
    startsWithChars "u1".data "u12".data = true ∧
    "u1" ≠ ("u12" : String) ∧
    startsWithChars ("u1" ++ "/").data "u12".data = false ∧
    ownershipOk "u1" ("u12" ++ "/" ++ "img.png") = false :=
  ⟨by decide, by decide, by decide,
    ownership_prefix_safe "u1" "u12" "img.png" (by decide) (by decide)
      (by decide)⟩

/-- A job owned by `u1` with no preview artifact. -/
def sampleJobNoPreview : Job :=
  { id := "j1"
    user_id := "u1"
    app_id := "fit"
    person_path := "u1/p.png"
    item_paths := []
    pose_id := none
    preview_path := none
    duration_ms := 42
    status := "completed_stub"
    created_at := 0 }

/-- A job owned by `u2` with a preview artifact. -/
def sampleJobOther : Job :=
  { id := "j2"
    user_id := "u2"
    app_id := "fit"
    person_path := "u2/p.png"
    item_paths := []
    pose_id := none
    preview_path := some "u2/j2.webp"
    duration_ms := 42
    status := "completed_stub"
    created_at := 0 }

/-- A job owned by `u1` with a preview artifact. -/
def sampleJobWithPreview : Job :=
  { id := "j3"
    user_id := "u1"
    app_id := "fit"
    person_path := "u1/p.png"
    item_paths := []
    pose_id := none
    preview_path := some "u1/j3.webp"
    duration_ms := 42
    status := "completed_stub"
    created_at := 0 }

/-- Sample collaborators for the gateway routes: token `tok1` resolves to
`u1`; jobs `j1` (u1, no preview), `j2` (u2) and `j3` (u1, preview) exist. -/
def sampleGatewayDeps : GatewayDeps :=
  { getUser := fun t => if t = "tok1" then some ⟨"u1"⟩ else none
    lookupJob := fun i =>
      if i = "j1" then some sampleJobNoPreview
      else if i = "j2" then some sampleJobOther
      else if i = "j3" then some sampleJobWithPreview
      else none
    ttlDays := 1
    sign := fun _ _ => .ok ⟨"signed-url"⟩
    download := fun _ => .ok [7]
    now := 5000 }

/-- **C1.** For an existing job and an authenticated caller who is not its
owner, all four read endpoints return exactly the 403 "Access denied"
response — never `NotFound`, and with no job fields, no signed URL and no
bytes (the responses carry only the error; no sign or download side effect
happens). -/
theorem read_endpoints_forbidden (deps : GatewayDeps) (h jid : String)
    (u : User) (J : Job)
    (hhdr : jsStartsWith h "Bearer " = true)
    (hu : deps.getUser (tokenOf h) = some u)
    (hjid : jid ≠ "")
    (hJ : deps.lookupJob jid = some J)
    (hown : J.user_id ≠ u.id) :
    shareRoute deps (some h) (.ok ⟨jid⟩) =
      ({ status := 403, error := some "Access denied" }, {}) ∧
    viewRoute deps jid (some h) =
      ({ status := 403, success := some false, error := some "Access denied" }, {}) ∧
    downloadRoute deps jid (some h) =
      ({ status := 403, error := some "Access denied" }, {}) ∧
    previewRoute deps (some h) (.ok ⟨jid⟩) =
      ({ status := 403, error := some "Access denied" }, {}) := by
  refine ⟨?_, ?_, ?_, ?_⟩ <;>
    simp [shareRoute, viewRoute, downloadRoute, previewRoute,
      hhdr, hu, hjid, hJ, hown]

/-- Witness for C1: caller `u1` requests job `j2` owned by `u2`. -/
theorem read_endpoints_forbidden_witness :
    shareRoute sampleGatewayDeps (some "Bearer tok1") (.ok ⟨"j2"⟩) =
      ({ status := 403, error := some "Access denied" }, {}) ∧
    viewRoute sampleGatewayDeps "j2" (some "Bearer tok1") =
      ({ status := 403, success := some false, error := some "Access denied" }, {}) ∧
    downloadRoute sampleGatewayDeps "j2" (some "Bearer tok1") =
      ({ status := 403, error := some "Access denied" }, {}) ∧
    previewRoute sampleGatewayDeps (some "Bearer tok1") (.ok ⟨"j2"⟩) =
      ({ status := 403, error := some "Access denied" }, {}) :=
  read_endpoints_forbidden sampleGatewayDeps "Bearer tok1" "j2" ⟨"u1"⟩
    sampleJobOther (by decide) (by decide) (by decide) (by decide) (by decide)

/-- Counterexample to C6 as stated: for a job owned by the caller with no
`preview_path`, the view-job endpoint does not return 404 — it responds 200
with `success: true`. -/
theorem view_no_preview_cex :
    sampleJobNoPreview.preview_path = none ∧
    sampleJobNoPreview.user_id = "u1" ∧
    (viewRoute sampleGatewayDeps "j1" (some "Bearer tok1")).1.status = 200 ∧
    (viewRoute sampleGatewayDeps "j1" (some "Bearer tok1")).1.success =
      some true := by decide

/-- **C6 (amended).** For a job owned by the authenticated caller with no
artifact reference, the share, download and preview-bytes endpoints return
404 "No preview available for this job", but the view-job endpoint returns
200 with `success: true`, the job record and no signed URL. -/
theorem gateway_no_artifact (deps : GatewayDeps) (h jid : String)
    (u : User) (J : Job)
    (hhdr : jsStartsWith h "Bearer " = true)
    (hu : deps.getUser (tokenOf h) = some u)
    (hjid : jid ≠ "")
    (hJ : deps.lookupJob jid = some J)
    (hown : J.user_id = u.id)
    (hprev : J.preview_path = none ∨ J.preview_path = some "") :
    shareRoute deps (some h) (.ok ⟨jid⟩) =
      ({ status := 404, error := some "No preview available for this job" }, {}) ∧
    downloadRoute deps jid (some h) =
      ({ status := 404, error := some "No preview available for this job" }, {}) ∧
    previewRoute deps (some h) (.ok ⟨jid⟩) =
      ({ status := 404, error := some "No preview available for this job" }, {}) ∧
    viewRoute deps jid (some h) =
      ({ status := 200, success := some true, job := some J }, {}) := by
  rcases hprev with hp | hp <;>
  refine ⟨?_, ?_, ?_, ?_⟩ <;>
    simp [shareRoute, viewRoute, downloadRoute, previewRoute,
      hhdr, hu, hjid, hJ, hown, hp]

/-- Witness for C6 (amended): job `j1` (owner `u1`, no preview) requested by
`u1`. -/
theorem gateway_no_artifact_witness :
    shareRoute sampleGatewayDeps (some "Bearer tok1") (.ok ⟨"j1"⟩) =
      ({ status := 404, error := some "No preview available for this job" }, {}) ∧
    downloadRoute sampleGatewayDeps "j1" (some "Bearer tok1") =
      ({ status := 404, error := some "No preview available for this job" }, {}) ∧
    previewRoute sampleGatewayDeps (some "Bearer tok1") (.ok ⟨"j1"⟩) =
      ({ status := 404, error := some "No preview available for this job" }, {}) ∧
    viewRoute sampleGatewayDeps "j1" (some "Bearer tok1") =
      ({ status := 200, success := some true, job := some sampleJobNoPreview }, {}) :=
  gateway_no_artifact sampleGatewayDeps "Bearer tok1" "j1" ⟨"u1"⟩
    sampleJobNoPreview (by decide) (by decide) (by decide) (by decide)
    (by decide) (Or.inl (by decide))

lemma simulateRoute_signCalls (deps : SimDeps) (hdr : Option String)
    (body : Except String SimBody) :
    ∀ c ∈ (simulateRoute deps hdr body).2.signCalls,
      c.2 = expiresInSec (deps.ttlDaysEnv.getD 1) := by
  intro c hc
  rcases hdr with _ | h
  · simp [simulateRoute] at hc
  · rcases hb : jsStartsWith h "Bearer " with _ | _
    · simp [simulateRoute, hb] at hc
    · rcases hu : deps.getUser (tokenOf h) with _ | u
      · simp [simulateRoute, hb, hu] at hc
      · rcases body with m | b
        · simp [simulateRoute, hb, hu] at hc
        · rcases hP : ownershipOk u.id b.personPath with _ | _
          · simp [simulateRoute, hb, hu, hP] at hc
          · rcases hq : b.itemPaths.find? (fun p => !ownershipOk u.id p) with _ | q
            · rcases hg : deps.gemini.success with _ | _
              · simp [simulateRoute, hb, hu, hP, hq, hg] at hc
              · rcases hup : deps.uploadError with _ | m
                · by_cases hl : deps.listResult = none ∨ deps.listResult = some []
                  · simp [simulateRoute, hb, hu, hP, hq, hg, hup, hl] at hc
                  · rcases hs : deps.sign (u.id ++ "/" ++ deps.freshId ++ ".webp")
                        (expiresInSec (deps.ttlDaysEnv.getD 1)) with m | d
                    · simp [simulateRoute, hb, hu, hP, hq, hg, hup, hl, hs] at hc
                      simp [hc]
                    · simp [simulateRoute, hb, hu, hP, hq, hg, hup, hl, hs] at hc
                      simp [hc]
                · simp [simulateRoute, hb, hu, hP, hq, hg, hup] at hc
            · simp [simulateRoute, hb, hu, hP, hq] at hc

lemma shareRoute_ttl (deps : GatewayDeps) (hdr : Option String)
    (body : Except String JobIdBody) :
    (∀ c ∈ (shareRoute deps hdr body).2.signCalls,
      c.2 = expiresInSec deps.ttlDays) ∧
    ((shareRoute deps hdr body).1.status = 200 →
      (shareRoute deps hdr body).1.expiresAt =
        some ((deps.now : Int) + expiresInSec deps.ttlDays * 1000)) := by
  rcases hdr with _ | h
  · simp [shareRoute]
  · rcases hb : jsStartsWith h "Bearer " with _ | _
    · simp [shareRoute, hb]
    · rcases hu : deps.getUser (tokenOf h) with _ | u
      · simp [shareRoute, hb, hu]
      · rcases body with m | b
        · simp [shareRoute, hb, hu]
        · by_cases hj : b.job_id = ""
          · simp [shareRoute, hb, hu, hj]
          · rcases hL : deps.lookupJob b.job_id with _ | J
            · simp [shareRoute, hb, hu, hj, hL]
            · by_cases ho : J.user_id = u.id
              · rcases hp : J.preview_path with _ | p
                · simp [shareRoute, hb, hu, hj, hL, ho, hp]
                · by_cases hpe : p = ""
                  · simp [shareRoute, hb, hu, hj, hL, ho, hp, hpe]
                  · rcases hS : deps.sign p (expiresInSec deps.ttlDays) with m | d
                    · simp [shareRoute, hb, hu, hj, hL, ho, hp, hpe, hS]
                    · simp [shareRoute, hb, hu, hj, hL, ho, hp, hpe, hS]
              · simp [shareRoute, hb, hu, hj, hL, ho]

lemma viewRoute_ttl (deps : GatewayDeps) (jid : String) (hdr : Option String) :
    (∀ c ∈ (viewRoute deps jid hdr).2.signCalls,
      c.2 = expiresInSec deps.ttlDays) ∧
    ((viewRoute deps jid hdr).1.expiresAt = none ∨
      (viewRoute deps jid hdr).1.expiresAt =
        some ((deps.now : Int) + expiresInSec deps.ttlDays * 1000)) := by
  by_cases hj : jid = ""
  · simp [viewRoute, hj]
  · rcases hdr with _ | h
    · simp [viewRoute, hj]
    · rcases hb : jsStartsWith h "Bearer " with _ | _
      · simp [viewRoute, hj, hb]
      · rcases hu : deps.getUser (tokenOf h) with _ | u
        · simp [viewRoute, hj, hb, hu]
        · rcases hL : deps.lookupJob jid with _ | J
          · simp [viewRoute, hj, hb, hu, hL]
          · by_cases ho : J.user_id = u.id
            · rcases hp : J.preview_path with _ | p
              · simp [viewRoute, hj, hb, hu, hL, ho, hp]
              · by_cases hpe : p = ""
                · simp [viewRoute, hj, hb, hu, hL, ho, hp, hpe]
                · rcases hS : deps.sign p (expiresInSec deps.ttlDays) with m | d
                  · simp [viewRoute, hj, hb, hu, hL, ho, hp, hpe, hS]
                  · simp [viewRoute, hj, hb, hu, hL, ho, hp, hpe, hS]
            · simp [viewRoute, hj, hb, hu, hL, ho]

/-- **C3.** For a configured TTL of `d` days, every signed URL minted by the
submission, share and view endpoints uses an expiry window of exactly
`max(60, floor(d * 86400))` seconds, and the `expiresAt` these endpoints
report equals the current clock plus that many seconds — deterministic given
a fixed clock and `d`, with no per-job override. -/
theorem signed_url_ttl (d : ℚ) :
    (∀ (deps : SimDeps) (hdr : Option String) (body : Except String SimBody),
      deps.ttlDaysEnv.getD 1 = d →
      ∀ c ∈ (simulateRoute deps hdr body).2.signCalls, c.2 = expiresInSec d) ∧
    (∀ (deps : GatewayDeps) (hdr : Option String)
        (body : Except String JobIdBody),
      deps.ttlDays = d →
      (∀ c ∈ (shareRoute deps hdr body).2.signCalls, c.2 = expiresInSec d) ∧
      ((shareRoute deps hdr body).1.status = 200 →
        (shareRoute deps hdr body).1.expiresAt =
          some ((deps.now : Int) + expiresInSec d * 1000))) ∧
    (∀ (deps : GatewayDeps) (jid : String) (hdr : Option String),
      deps.ttlDays = d →
      (∀ c ∈ (viewRoute deps jid hdr).2.signCalls, c.2 = expiresInSec d) ∧
      ((viewRoute deps jid hdr).1.expiresAt = none ∨
        (viewRoute deps jid hdr).1.expiresAt =
          some ((deps.now : Int) + expiresInSec d * 1000))) := by
  refine ⟨?_, ?_, ?_⟩
  · intro deps hdr body hd c hc
    have hgen := simulateRoute_signCalls deps hdr body c hc
    rw [hd] at hgen
    exact hgen
  · intro deps hdr body hd
    have hgen := shareRoute_ttl deps hdr body
    rw [hd] at hgen
    exact hgen
  · intro deps jid hdr hd
    have hgen := viewRoute_ttl deps jid hdr
    rw [hd] at hgen
    exact hgen

/-- Witness for C3 with `d = 1` day: the submission route's one sign call
uses `expiresInSec 1` seconds, and the share route reports
`now + expiresInSec 1` seconds. -/
theorem signed_url_ttl_witness :
    (("u1/job-1.webp", expiresInSec 1) : String × Int).2 = expiresInSec 1 ∧
    (shareRoute sampleGatewayDeps (some "Bearer tok1") (.ok ⟨"j3"⟩)).1.expiresAt =
      some ((5000 : Int) + expiresInSec 1 * 1000) :=
  ⟨(signed_url_ttl 1).1 sampleSimDeps (some "Bearer tok1")
      (.ok ⟨"u1/p.png", []⟩) rfl ("u1/job-1.webp", expiresInSec 1)
      (by exact List.mem_singleton.mpr rfl),
   ((signed_url_ttl 1).2.1 sampleGatewayDeps (some "Bearer tok1")
      (.ok ⟨"j3"⟩) rfl).2 rfl⟩

end FitSim
